import Mathlib

/-!
Shallow embedding of the xclock hook/event core (Rust sources:
src/xclock-hook/src/lib.rs, src/xclock/src/lib.rs, src/xclock/src/lib_new.rs).
Pure logic is translated to Lean functions; OS calls become explicit
environment inputs; global mutable state becomes explicit state records.
-/

namespace XClock

/-- Prefix test on character lists, used to embed Rust `str::contains`. -/
def listPrefixEq : List Char → List Char → Bool
  | [], _ => true
  | _ :: _, [] => false
  | a :: as, b :: bs => a == b && listPrefixEq as bs

/-- Infix (substring) test on character lists. -/
def listHasInfix (pat : List Char) : List Char → Bool
  | [] => listPrefixEq pat []
  | c :: tl => listPrefixEq pat (c :: tl) || listHasInfix pat tl

/-- Embedding of Rust `str::contains(pat)`: substring containment. -/
def strContains (s pat : String) : Bool :=
  listHasInfix pat.toList s.toList

/-- Uptime formatting shared verbatim by `get_uptime` (xclock-hook lib.rs,
lines 115-131) and `generate_tooltip_text` (xclock lib.rs, lines 72-83):
seconds are split into days / hours / minutes and printed in three cases. -/
def format_uptime (uptime_seconds : Nat) : String :=
  let days := uptime_seconds / (24 * 3600)
  let hours := (uptime_seconds % (24 * 3600)) / 3600
  let minutes := (uptime_seconds % 3600) / 60
  if days > 0 then
    toString days ++ "d " ++ toString hours ++ "h " ++ toString minutes ++ "m"
  else if hours > 0 then
    toString hours ++ "h " ++ toString minutes ++ "m"
  else
    toString minutes ++ "m"

/-- Model of the OS tick counter: `GetTickCount` returns milliseconds since
boot truncated to 32 bits (the counter wraps every 2^32 ms). `trueUptimeMs`
is the true boot-relative uptime in milliseconds. -/
def getTickCount (trueUptimeMs : Nat) : Nat :=
  trueUptimeMs % 2 ^ 32

/-- The uptime value (in seconds) the formatter receives, as computed in
`get_uptime` (xclock-hook lib.rs line 117-118): tick count divided by 1000. -/
def uptime_seconds_received (trueUptimeMs : Nat) : Nat :=
  getTickCount trueUptimeMs / 1000

/-- Embedding of `get_uptime` (xclock-hook lib.rs, lines 115-131) as a
function of the true boot-relative uptime in milliseconds. -/
def get_uptime (trueUptimeMs : Nat) : String :=
  format_uptime (uptime_seconds_received trueUptimeMs)

/-- Modelled from the spec (claim C7 wording): the uptime string built from
the largest two non-zero units among days, hours, minutes. Used only to
compare the spec text against the code formatter. -/
def uptime_two_units_spec (uptime_seconds : Nat) : String :=
  let days := uptime_seconds / (24 * 3600)
  let hours := (uptime_seconds % (24 * 3600)) / 3600
  let minutes := (uptime_seconds % 3600) / 60
  let units := [(days, "d"), (hours, "h"), (minutes, "m")]
  let nonzero := units.filter (fun p => p.1 != 0)
  String.intercalate " " ((nonzero.take 2).map (fun p => toString p.1 ++ p.2))

/-- Window rectangle as returned by `GetWindowRect`. -/
structure Rect where
  left : Int
  top : Int
  right : Int
  bottom : Int
deriving DecidableEq

/-- A discovered target window: its resolved class name and the bounding
rectangle the per-call `GetWindowRect` query returns (`none` when the query
fails or the handle is null/stale). Bounds are an input of every hit-test
call, reflecting that the code re-queries them each time. -/
structure Target where
  className : String
  bounds : Option Rect
deriving DecidableEq

/-- Per-target body of the loop in `is_point_in_any_clock` (xclock lib.rs,
lines 148-174): failed bounds query skips the target; a class containing
"Clock" or "Time" uses the exact rectangle (all edges inclusive);
"TrayNotifyWnd" uses only the right third, starting at
left + (width * 2) / 3 with Rust i32 truncating division. -/
def point_in_target (x y : Int) (t : Target) : Bool :=
  match t.bounds with
  | none => false
  | some r =>
    if strContains t.className "Clock" || strContains t.className "Time" then
      decide (r.left ≤ x ∧ x ≤ r.right ∧ r.top ≤ y ∧ y ≤ r.bottom)
    else if t.className = "TrayNotifyWnd" then
      let width := r.right - r.left
      let clockAreaLeft := r.left + Int.tdiv (width * 2) 3
      decide (clockAreaLeft ≤ x ∧ x ≤ r.right ∧ r.top ≤ y ∧ y ≤ r.bottom)
    else
      false

/-- Embedding of `is_point_in_any_clock` (xclock lib.rs, lines 145-180):
first matching target in discovery order wins; no target ⇒ false. -/
def is_point_in_any_clock (x y : Int) (targets : List Target) : Bool :=
  targets.any (point_in_target x y)

/-- Environment of one `modify_tooltip_text` call (xclock-hook lib.rs,
lines 140-195): the OS-supplied facts it reads. `now` is the current instant
in milliseconds; `setTextSucceeds` is whether `SetWindowTextW` succeeds;
`uptime` and `week` are the composed strings appended to the text. -/
structure TooltipEnv where
  now : Nat
  className : String
  inTaskbarArea : Bool
  setTextSucceeds : Bool
  uptime : String
  week : String

/-- Mutable state read and written by the tooltip mutator: the
`LAST_TOOLTIP_UPDATE` timestamp (ms) and the tooltip window's text. -/
structure TooltipState where
  lastUpdate : Option Nat
  text : String
deriving DecidableEq

/-- Embedding of `should_update_tooltip` (xclock-hook lib.rs, lines
102-109): false iff a previous update exists and less than the 500ms
cooldown has elapsed since it. -/
def should_update_tooltip (now : Nat) (lastUpdate : Option Nat) : Bool :=
  match lastUpdate with
  | some t => decide (¬ (now - t < 500))
  | none => true

/-- Embedding of the time/date marker test in `modify_tooltip_text`
(xclock-hook lib.rs, lines 164-168). -/
def has_time_markers (s : String) : Bool :=
  strContains s ":" || strContains s "AM" || strContains s "PM" ||
    strContains s "/" || s.toList.any Char.isDigit

/-- Body of `modify_tooltip_text` after the cooldown gate (xclock-hook
lib.rs, lines 148-195): class filter, taskbar-area filter, marker filter,
then the text write; on success the text is appended to and the
last-update timestamp advances, on failure nothing changes. -/
def mutate_tooltip (env : TooltipEnv) (s : TooltipState) : TooltipState :=
  if env.className ≠ "tooltips_class32" then s
  else if env.inTaskbarArea = false then s
  else if s.text.isEmpty || has_time_markers s.text = false then s
  else if env.setTextSucceeds then
    { lastUpdate := some env.now,
      text := s.text ++ "\nOpptid: " ++ env.uptime ++ "\n" ++ env.week }
  else s

/-- Embedding of `modify_tooltip_text` (xclock-hook lib.rs, lines 140-195):
the cooldown gate drops the request wholesale, otherwise the body runs. -/
def modify_tooltip_text (env : TooltipEnv) (s : TooltipState) : TooltipState :=
  if should_update_tooltip env.now s.lastUpdate = false then s
  else mutate_tooltip env s

/-- Observable actions a hook procedure can perform, in order. -/
inductive HookEvent where
  | updateMousePos
  | showTooltip
  | hideTooltip
  | scheduleTooltipWorker
  | callNextHook
deriving DecidableEq

/-- Windows message and hook-code constants used by the two procedures. -/
def WM_MOUSEMOVE : Nat := 0x0200

def WM_LBUTTONDOWN : Nat := 0x0201

def WM_RBUTTONDOWN : Nat := 0x0204

def WM_MBUTTONDOWN : Nat := 0x0207

def HCBT_CREATEWND : Int := 3

/-- Environment of one `cbt_hook_proc` invocation: the created window's
class name and the value `CallNextHookEx` returns. -/
structure CbtEnv where
  className : String
  nextResult : Int

/-- Embedding of `cbt_hook_proc` (xclock-hook lib.rs, lines 198-240) as the
ordered list of its observable actions plus its return value: on a
window-creation event for the native tooltip class it spawns the deferred
worker; every path ends in exactly the one `CallNextHookEx` call, whose
result is returned. -/
def cbt_hook_proc (env : CbtEnv) (code : Int) : List HookEvent × Int :=
  let actions :=
    if code = HCBT_CREATEWND then
      if env.className = "tooltips_class32" then
        [HookEvent.scheduleTooltipWorker]
      else []
    else []
  (actions ++ [HookEvent.callNextHook], env.nextResult)

/-- Environment of one `mouse_hook_proc` invocation: the two hit-test
answers (the oracle is consulted again after the debounce sleep), the
current `TOOLTIP_VISIBLE` flag, and the `CallNextHookEx` return value. -/
structure MouseEnv where
  inClockFirst : Bool
  inClockSecond : Bool
  tooltipVisible : Bool
  nextResult : Int

/-- Embedding of `mouse_hook_proc` (xclock lib.rs, lines 284-330) as the
ordered list of its observable actions plus its return value. -/
def mouse_hook_proc (env : MouseEnv) (code : Int) (wparam : Nat) :
    List HookEvent × Int :=
  let actions :=
    if 0 ≤ code then
      if wparam = WM_MOUSEMOVE then
        HookEvent.updateMousePos ::
          (if env.inClockFirst then
            if env.tooltipVisible = false then
              if env.inClockSecond then [HookEvent.showTooltip] else []
            else []
          else [HookEvent.hideTooltip])
      else if wparam = WM_LBUTTONDOWN ∨ wparam = WM_RBUTTONDOWN ∨
          wparam = WM_MBUTTONDOWN then
        [HookEvent.hideTooltip]
      else []
    else []
  (actions ++ [HookEvent.callNextHook], env.nextResult)

/-- Global state of the hook DLL (xclock-hook lib.rs, lines 22-23):
`HOOK_INSTALLED` and `HOOK_HANDLE` (`none` models the null pointer). -/
structure HookDllState where
  hookInstalled : Bool
  hookHandle : Option Nat
deriving DecidableEq

/-- Embedding of `InstallHook` (xclock-hook lib.rs, lines 244-270).
`osInstallResult` is what `SetWindowsHookExW` would return (`some handle`
or null). Result: the BOOL return value, the new state, and whether
`SetWindowsHookExW` was actually invoked. -/
def InstallHook (osInstallResult : Option Nat) (s : HookDllState) :
    Int × HookDllState × Bool :=
  if s.hookInstalled then (1, s, false)
  else
    match osInstallResult with
    | some h => (1, { hookInstalled := true, hookHandle := some h }, true)
    | none => (0, s, true)

/-- Embedding of `UninstallHook` (xclock-hook lib.rs, lines 273-299).
`unhookSucceeds` is whether `UnhookWindowsHookEx` succeeds; on failure the
state is left untouched and 0 is returned. -/
def UninstallHook (unhookSucceeds : Bool) (s : HookDllState) :
    Int × HookDllState :=
  if s.hookInstalled = false then (1, s)
  else
    match s.hookHandle with
    | some _ =>
      if unhookSucceeds then (1, { hookInstalled := false, hookHandle := none })
      else (0, s)
    | none => (1, { s with hookInstalled := false })

/-- Global state of the DLL-loader variant (xclock lib_new.rs, lines 10-11)
together with the hook DLL's own state: `RUNNING`, whether `HOOK_DLL` is
non-null, and the DLL-side globals. -/
structure MonitorState where
  running : Bool
  dllLoaded : Bool
  dll : HookDllState
deriving DecidableEq

/-- Environment of one lifecycle call in lib_new.rs: whether `LoadLibraryW`
succeeds, what `SetWindowsHookExW` returns, whether `UnhookWindowsHookEx`
succeeds. -/
structure MonitorEnv where
  dllLoadSucceeds : Bool
  osInstallResult : Option Nat
  unhookSucceeds : Bool

/-- Embedding of `load_hook_dll` (xclock lib_new.rs, lines 21-34): no-op
when already loaded, otherwise the load attempt. -/
def load_hook_dll (loadSucceeds : Bool) (s : MonitorState) :
    Bool × MonitorState :=
  if s.dllLoaded then (true, s)
  else if loadSucceeds then (true, { s with dllLoaded := true })
  else (false, s)

/-- Embedding of `start_monitoring` (xclock lib_new.rs, lines 73-91):
reject when already running, load the DLL, call `InstallHook`, and set
`RUNNING` only when everything succeeded. -/
def start_monitoring (env : MonitorEnv) (s : MonitorState) :
    Except String Unit × MonitorState :=
  if s.running then (.error "Monitoring is already running", s)
  else
    match load_hook_dll env.dllLoadSucceeds s with
    | (false, s1) => (.error "Failed to load xclock_hook.dll", s1)
    | (true, s1) =>
      let r := InstallHook env.osInstallResult s1.dll
      let s2 := { s1 with dll := r.2.1 }
      if r.1 = 0 then (.error "Failed to install hook in DLL", s2)
      else (.ok (), { s2 with running := true })

/-- Embedding of `stop_monitoring` (xclock lib_new.rs, lines 93-103):
clear `RUNNING` first; when the DLL is loaded, call `UninstallHook`
(its result is ignored) and unload the DLL. -/
def stop_monitoring (env : MonitorEnv) (s : MonitorState) : MonitorState :=
  let s1 := { s with running := false }
  if s1.dllLoaded then
    let r := UninstallHook env.unhookSucceeds s1.dll
    { s1 with dll := r.2, dllLoaded := false }
  else s1

/-- Global state of the in-process variant (xclock lib.rs, lines 28-33):
the once-set `CLOCK_WINDOWS` list, whether the tooltip window class is
registered, the mouse hook handle, the custom tooltip window and its
visibility flag, and `RUNNING`. -/
structure ClockHookState where
  clockWindows : Option (List Target)
  classRegistered : Bool
  hookHandle : Option Nat
  tooltipWindow : Option Nat
  tooltipVisible : Bool
  running : Bool
deriving DecidableEq

/-- Environment of one `start_clock_hook` call: the windows
`find_all_clock_windows` discovers, whether `RegisterClassW` succeeds, and
what `SetWindowsHookExW` returns. -/
structure ClockHookEnv where
  foundWindows : List Target
  registerSucceeds : Bool
  osInstallResult : Option Nat

/-- Embedding of `hide_tooltip` (xclock lib.rs, lines 274-281): destroy the
custom tooltip window when one exists and clear both fields. -/
def hide_tooltip (s : ClockHookState) : ClockHookState :=
  match s.tooltipWindow with
  | some _ => { s with tooltipWindow := none, tooltipVisible := false }
  | none => s

/-- Embedding of `remove_hook` (xclock lib.rs, lines 433-439): unhook when
a handle exists (the unhook result is ignored) and clear the handle. -/
def remove_hook (s : ClockHookState) : ClockHookState :=
  match s.hookHandle with
  | some _ => { s with hookHandle := none }
  | none => s

/-- Embedding of `stop_clock_hook` (xclock lib.rs, lines 472-479):
hide the tooltip, remove the hook, clear `RUNNING`. -/
def stop_clock_hook (s : ClockHookState) : ClockHookState :=
  { remove_hook (hide_tooltip s) with running := false }

/-- Embedding of `start_clock_hook` (xclock lib.rs, lines 442-470):
store the discovered windows (`OnceLock.set` keeps an existing value),
fail on an empty discovery, on class-registration failure, or on hook
installation failure; only full success sets `RUNNING`. Note the error
paths leave already-acquired resources (the stored window list, a
registered class) in place. -/
def start_clock_hook (env : ClockHookEnv) (s : ClockHookState) :
    Except String Unit × ClockHookState :=
  let stored :=
    match s.clockWindows with
    | some w => some w
    | none => some env.foundWindows
  let s0 := { s with clockWindows := stored }
  if env.foundWindows.isEmpty then
    (.error "No clock windows found! Cannot install tooltip replacement.", s0)
  else if env.registerSucceeds = false then
    (.error "Failed to register tooltip window class", s0)
  else
    let s1 := { s0 with classRegistered := true }
    match env.osInstallResult with
    | none => (.error "Failed to install mouse hook", s1)
    | some h => (.ok (), { s1 with hookHandle := some h, running := true })

/-!
Helper lemmas shared by the claim theorems.
-/

/-- Hit-testing a single-target list reduces to the per-target rule. -/
theorem any_single (x y : Int) (t : Target) :
    is_point_in_any_clock x y [t] = point_in_target x y t := by
  simp [is_point_in_any_clock]

/-- A `start_monitoring` call that returns `ok` leaves `RUNNING` set. -/
theorem start_ok_running (e : MonitorEnv) (m : MonitorState)
    (h : (start_monitoring e m).1 = .ok ()) :
    (start_monitoring e m).2.running = true := by
  unfold start_monitoring at h ⊢
  split at h
  · simp_all
  · split at h <;> rename_i heq
    · simp_all
    · dsimp only at h ⊢
      split at h
      · simp_all
      · simp_all

/-- A successful `UninstallHook` call always clears `HOOK_INSTALLED`. -/
theorem uninstall_clears (dll : HookDllState) :
    (UninstallHook true dll).2.hookInstalled = false := by
  unfold UninstallHook
  split
  · simp_all
  · split <;> simp_all

/-- Claim C1: a tooltip mutation request arriving strictly within the
500ms cooldown since the last successful mutation is dropped with no side
effects; once at least the cooldown has elapsed the gate passes and (when
the filters and the text write succeed) the mutation happens; a failed
text write changes nothing; and the last-update timestamp changes only
when the write succeeds, to the current instant. -/
theorem claim_C1_cooldown_gate :
    (∀ (env : TooltipEnv) (s : TooltipState) (t : Nat),
      s.lastUpdate = some t → env.now - t < 500 →
      modify_tooltip_text env s = s) ∧
    (∀ (env : TooltipEnv) (s : TooltipState),
      should_update_tooltip env.now s.lastUpdate = true →
      modify_tooltip_text env s = mutate_tooltip env s) ∧
    (∀ (env : TooltipEnv) (s : TooltipState) (t : Nat),
      s.lastUpdate = some t → 500 ≤ env.now - t →
      env.className = "tooltips_class32" → env.inTaskbarArea = true →
      s.text.isEmpty = false → has_time_markers s.text = true →
      env.setTextSucceeds = true →
      modify_tooltip_text env s =
        { lastUpdate := some env.now,
          text := s.text ++ "\nOpptid: " ++ env.uptime ++ "\n" ++ env.week }) ∧
    (∀ (env : TooltipEnv) (s : TooltipState),
      env.setTextSucceeds = false → modify_tooltip_text env s = s) ∧
    (∀ (env : TooltipEnv) (s : TooltipState),
      (modify_tooltip_text env s).lastUpdate ≠ s.lastUpdate →
      env.setTextSucceeds = true ∧
        (modify_tooltip_text env s).lastUpdate = some env.now) := by
  refine ⟨fun env s t hl hc => ?_, fun env s hg => ?_,
    fun env s t hl he hcl ha hne hm hw => ?_, fun env s hw => ?_,
    fun env s h => ?_⟩
  · simp [modify_tooltip_text, should_update_tooltip, hl, hc]
  · simp [modify_tooltip_text, hg]
  · have hng : ¬ (env.now - t < 500) := by omega
    simp [modify_tooltip_text, mutate_tooltip, should_update_tooltip, hl, hng,
      hcl, ha, hne, hm, hw]
  · simp [modify_tooltip_text, mutate_tooltip, hw]
  · unfold modify_tooltip_text mutate_tooltip at h ⊢
    split at h
    · exact absurd rfl h
    · split at h
      · exact absurd rfl h
      · split at h
        · exact absurd rfl h
        · split at h
          · exact absurd rfl h
          · split at h
            · simp_all
            · exact absurd rfl h

/-- Claim C1 witness: a successful mutation at t = 1000ms (given a last
update at t = 0) followed 100ms later by a request that the cooldown
drops unchanged. -/
theorem claim_C1_cooldown_gate_witness :
    modify_tooltip_text ⟨1000, "tooltips_class32", true, true, "5m", "Uke 41"⟩
        ⟨some 0, "12:00"⟩ =
      { lastUpdate := some 1000,
        text := "12:00" ++ "\nOpptid: " ++ "5m" ++ "\n" ++ "Uke 41" } ∧
    modify_tooltip_text ⟨1100, "tooltips_class32", true, true, "5m", "Uke 41"⟩
        ⟨some 1000, "12:00\nOpptid: 5m\nUke 41"⟩ =
      ⟨some 1000, "12:00\nOpptid: 5m\nUke 41"⟩ :=
  ⟨claim_C1_cooldown_gate.2.2.1 ⟨1000, "tooltips_class32", true, true, "5m", "Uke 41"⟩
      ⟨some 0, "12:00"⟩ 0 rfl (by decide) rfl rfl (by decide) (by decide) rfl,
   claim_C1_cooldown_gate.1 ⟨1100, "tooltips_class32", true, true, "5m", "Uke 41"⟩
      ⟨some 1000, "12:00\nOpptid: 5m\nUke 41"⟩ 1000 rfl (by decide)⟩

/-- Claim C2: the hit-test oracle classifies per class name: a "Clock"- or
"Time"-containing class uses the exact (all-edges-inclusive) rectangle; the
"TrayNotifyWnd" class uses only the rectangle's right third (left edge at
left + width*2/3, truncating division), so with bounds (0,0)-(300,40) only
x in [200,300] is inside; a failed bounds query means not contained. -/
theorem claim_C2_hit_test :
    (∀ (x y : Int) (cn : String) (r : Rect),
      strContains cn "Clock" = true ∨ strContains cn "Time" = true →
      (is_point_in_any_clock x y [⟨cn, some r⟩] = true ↔
        r.left ≤ x ∧ x ≤ r.right ∧ r.top ≤ y ∧ y ≤ r.bottom)) ∧
    (is_point_in_any_clock 150 115
        [⟨"TrayClockWClass", some ⟨100, 100, 200, 130⟩⟩] = true ∧
      is_point_in_any_clock 250 115
        [⟨"TrayClockWClass", some ⟨100, 100, 200, 130⟩⟩] = false ∧
      is_point_in_any_clock 99 115
        [⟨"TrayClockWClass", some ⟨100, 100, 200, 130⟩⟩] = false) ∧
    (∀ (x y : Int) (r : Rect),
      is_point_in_any_clock x y [⟨"TrayNotifyWnd", some r⟩] = true ↔
        r.left + Int.tdiv ((r.right - r.left) * 2) 3 ≤ x ∧ x ≤ r.right ∧
          r.top ≤ y ∧ y ≤ r.bottom) ∧
    (is_point_in_any_clock 199 20
        [⟨"TrayNotifyWnd", some ⟨0, 0, 300, 40⟩⟩] = false ∧
      is_point_in_any_clock 200 20
        [⟨"TrayNotifyWnd", some ⟨0, 0, 300, 40⟩⟩] = true ∧
      (∀ x : Int,
        is_point_in_any_clock x 20 [⟨"TrayNotifyWnd", some ⟨0, 0, 300, 40⟩⟩] = true ↔
          200 ≤ x ∧ x ≤ 300)) ∧
    (∀ (x y : Int) (cn : String),
      is_point_in_any_clock x y [⟨cn, none⟩] = false) := by
  refine ⟨fun x y cn r h => ?_, ⟨by decide, by decide, by decide⟩,
    fun x y r => ?_, ⟨by decide, by decide, fun x => ?_⟩, fun x y cn => ?_⟩
  · rw [any_single]
    rcases h with h | h <;> simp [point_in_target, h]
  · rw [any_single]
    have hc : (strContains "TrayNotifyWnd" "Clock" ||
        strContains "TrayNotifyWnd" "Time") = false := by decide
    simp [point_in_target, hc]
  · rw [any_single]
    have hc : (strContains "TrayNotifyWnd" "Clock" ||
        strContains "TrayNotifyWnd" "Time") = false := by decide
    have ht : Int.tdiv 600 3 = 200 := by decide
    simp [point_in_target, hc, ht]
  · rw [any_single]
    simp [point_in_target]

/-- Claim C2 witness: the clock-class rule applied at the concrete point
(150,115) inside bounds (100,100)-(200,130). -/
theorem claim_C2_hit_test_witness :
    is_point_in_any_clock 150 115
      [⟨"TrayClockWClass", some ⟨100, 100, 200, 130⟩⟩] = true :=
  (claim_C2_hit_test.1 150 115 "TrayClockWClass" ⟨100, 100, 200, 130⟩
    (Or.inl (by decide))).mpr (by decide)

/-- Claim C3: each hook procedure performs exactly one `CallNextHookEx`
call on every control path and returns its result, whatever the event and
whatever the filters decided. -/
theorem claim_C3_forward_exactly_once :
    (∀ (env : CbtEnv) (code : Int),
      (cbt_hook_proc env code).1.count HookEvent.callNextHook = 1 ∧
        (cbt_hook_proc env code).2 = env.nextResult) ∧
    (∀ (env : MouseEnv) (code : Int) (wparam : Nat),
      (mouse_hook_proc env code wparam).1.count HookEvent.callNextHook = 1 ∧
        (mouse_hook_proc env code wparam).2 = env.nextResult) := by
  constructor
  · intro env code
    constructor
    · unfold cbt_hook_proc
      split
      · split <;> rfl
      · rfl
    · rfl
  · intro env code wparam
    constructor
    · unfold mouse_hook_proc
      repeat' split
      all_goals rfl
    · rfl

/-- Claim C4: a hook is never installed twice: `InstallHook` is a no-op
returning success when `HOOK_INSTALLED` is already set (no OS install
call, state unchanged), `start_monitoring` rejects a second start while
running, and a start directly after a successful start is rejected with
the state untouched. -/
theorem claim_C4_single_hook :
    (∀ (o : Option Nat) (s : HookDllState), s.hookInstalled = true →
      InstallHook o s = (1, s, false)) ∧
    (∀ (e : MonitorEnv) (m : MonitorState), m.running = true →
      start_monitoring e m = (.error "Monitoring is already running", m)) ∧
    (∀ (e1 e2 : MonitorEnv) (m : MonitorState),
      (start_monitoring e1 m).1 = .ok () →
      start_monitoring e2 (start_monitoring e1 m).2 =
        (.error "Monitoring is already running", (start_monitoring e1 m).2)) := by
  have hb : ∀ (e : MonitorEnv) (m : MonitorState), m.running = true →
      start_monitoring e m = (.error "Monitoring is already running", m) := by
    intro e m h
    simp [start_monitoring, h]
  refine ⟨fun o s h => ?_, hb, fun e1 e2 m h => ?_⟩
  · simp [InstallHook, h]
  · exact hb e2 (start_monitoring e1 m).2 (start_ok_running e1 m h)

/-- Claim C4 witness: an already-installed DLL state makes `InstallHook` a
no-op, and a concrete successful start followed by a second start is
rejected with the state unchanged. -/
theorem claim_C4_single_hook_witness :
    InstallHook (some 5) ⟨true, some 7⟩ = (1, ⟨true, some 7⟩, false) ∧
    start_monitoring ⟨true, some 3, true⟩
        (start_monitoring ⟨true, some 3, true⟩ ⟨false, false, ⟨false, none⟩⟩).2 =
      (.error "Monitoring is already running",
        (start_monitoring ⟨true, some 3, true⟩ ⟨false, false, ⟨false, none⟩⟩).2) :=
  ⟨claim_C4_single_hook.1 (some 5) ⟨true, some 7⟩ rfl,
   claim_C4_single_hook.2.2 ⟨true, some 3, true⟩ ⟨true, some 3, true⟩
     ⟨false, false, ⟨false, none⟩⟩ rfl⟩

/-- Claim C5: stopping is idempotent and safe from every prior state: a
second `stop_monitoring` changes nothing, `RUNNING` always ends false, a
successful unhook leaves the DLL hook uninstalled, and `stop_clock_hook`
is idempotent and leaves the running flag cleared, the hook removed and
the custom tooltip destroyed. -/
theorem claim_C5_stop_idempotent :
    (∀ (e1 e2 : MonitorEnv) (m : MonitorState),
      stop_monitoring e2 (stop_monitoring e1 m) = stop_monitoring e1 m) ∧
    (∀ (e : MonitorEnv) (m : MonitorState),
      (stop_monitoring e m).running = false) ∧
    (∀ (e : MonitorEnv) (m : MonitorState),
      e.unhookSucceeds = true → m.dllLoaded = true →
      (stop_monitoring e m).dll.hookInstalled = false) ∧
    (∀ s : ClockHookState, stop_clock_hook (stop_clock_hook s) = stop_clock_hook s) ∧
    (∀ s : ClockHookState,
      (stop_clock_hook s).running = false ∧
        (stop_clock_hook s).hookHandle = none ∧
        (stop_clock_hook s).tooltipWindow = none) := by
  refine ⟨fun e1 e2 m => ?_, fun e m => ?_, fun e m hu hd => ?_,
    fun s => ?_, fun s => ?_⟩
  · cases hd : m.dllLoaded <;> simp [stop_monitoring, hd]
  · cases hd : m.dllLoaded <;> simp [stop_monitoring, hd]
  · simp [stop_monitoring, hd, hu, uninstall_clears]
  · unfold stop_clock_hook hide_tooltip remove_hook
    cases h1 : s.tooltipWindow <;> cases h2 : s.hookHandle <;> simp_all
  · unfold stop_clock_hook hide_tooltip remove_hook
    cases h1 : s.tooltipWindow <;> cases h2 : s.hookHandle <;> simp_all

/-- Claim C5 witness: stopping a fully-running concrete state clears the
installed flag when the unhook succeeds. -/
theorem claim_C5_stop_idempotent_witness :
    (stop_monitoring ⟨true, none, true⟩
      ⟨true, true, ⟨true, some 7⟩⟩).dll.hookInstalled = false :=
  claim_C5_stop_idempotent.2.2.1 ⟨true, none, true⟩
    ⟨true, true, ⟨true, some 7⟩⟩ rfl rfl

/-- Claim C6 counterexample: the claim asserts every partially-installed
resource is torn down before a failed start returns. Concretely: in
`start_clock_hook`, when discovery and class registration succeed but hook
installation fails, the registered window class stays registered (no
`UnregisterClassW` exists in the code); in `start_monitoring`, when the
DLL loads but `InstallHook` fails, the DLL stays loaded. -/
theorem claim_C6_teardown_counterexample :
    ((start_clock_hook ⟨[⟨"TrayClockWClass", none⟩], true, none⟩
        ⟨none, false, none, none, false, false⟩).1 =
      .error "Failed to install mouse hook" ∧
      (start_clock_hook ⟨[⟨"TrayClockWClass", none⟩], true, none⟩
        ⟨none, false, none, none, false, false⟩).2.classRegistered = true) ∧
    ((start_monitoring ⟨true, none, true⟩ ⟨false, false, ⟨false, none⟩⟩).1 =
      .error "Failed to install hook in DLL" ∧
      (start_monitoring ⟨true, none, true⟩
        ⟨false, false, ⟨false, none⟩⟩).2.dllLoaded = true) :=
  ⟨⟨rfl, rfl⟩, rfl, rfl⟩

/-- Claim C6 as amended: a failure at any step of start aborts the
sequence and leaves the state Stopped — running flag false and no hook
installed — but resources acquired earlier in the sequence (the loaded
hook DLL, the registered window class) are not torn down. -/
theorem claim_C6_start_failure_stopped :
    (∀ (env : ClockHookEnv) (s : ClockHookState),
      s.running = false → s.hookHandle = none →
      (start_clock_hook env s).1 ≠ .ok () →
      (start_clock_hook env s).2.running = false ∧
        (start_clock_hook env s).2.hookHandle = none) ∧
    (∀ (env : MonitorEnv) (m : MonitorState),
      m.running = false → m.dll.hookInstalled = false →
      (start_monitoring env m).1 ≠ .ok () →
      (start_monitoring env m).2.running = false ∧
        (start_monitoring env m).2.dll.hookInstalled = false) := by
  refine ⟨fun env s hr hh he => ?_, fun env m hr hh he => ?_⟩
  · cases hE : env.foundWindows <;>
      cases hReg : env.registerSucceeds <;>
        cases hOs : env.osInstallResult <;>
          cases hCw : s.clockWindows <;>
            simp_all [start_clock_hook]
  · cases hd : m.dllLoaded <;>
      cases hl : env.dllLoadSucceeds <;>
        cases hOs : env.osInstallResult <;>
          simp_all [start_monitoring, load_hook_dll, InstallHook]

/-- Claim C6 witness: the amended statement at the concrete failing input
of the counterexample — hook installation fails after class registration
succeeded — still leaves the state Stopped. -/
theorem claim_C6_start_failure_stopped_witness :
    (start_clock_hook ⟨[⟨"TrayClockWClass", none⟩], true, none⟩
        ⟨none, false, none, none, false, false⟩).2.running = false ∧
      (start_clock_hook ⟨[⟨"TrayClockWClass", none⟩], true, none⟩
        ⟨none, false, none, none, false, false⟩).2.hookHandle = none :=
  claim_C6_start_failure_stopped.1 ⟨[⟨"TrayClockWClass", none⟩], true, none⟩
    ⟨none, false, none, none, false, false⟩ rfl rfl
    (fun hcontra => Except.noConfusion hcontra)

/-- Claim C7 counterexample: at one day, two hours and three minutes of
uptime the code formats all three units ("1d 2h 3m"), not the largest two
non-zero units ("1d 2h") the claim describes. -/
theorem claim_C7_two_units_counterexample :
    format_uptime (86400 + 2 * 3600 + 3 * 60) ≠
      uptime_two_units_spec (86400 + 2 * 3600 + 3 * 60) ∧
    format_uptime (86400 + 2 * 3600 + 3 * 60) = "1d 2h 3m" ∧
    uptime_two_units_spec (86400 + 2 * 3600 + 3 * 60) = "1d 2h" := by
  refine ⟨by decide, by decide, by decide⟩

/-- Claim C7 as amended: the formatted uptime string consists of all three
units when days are non-zero, of hours and minutes when days are zero and
hours non-zero, and of minutes alone otherwise — zero lower units are
printed once a larger unit is shown. -/
theorem claim_C7_uptime_units (d h m : Nat) (hh : h < 24) (hm : m < 60) :
    format_uptime (d * 86400 + h * 3600 + m * 60) =
      if d > 0 then
        toString d ++ "d " ++ toString h ++ "h " ++ toString m ++ "m"
      else if h > 0 then toString h ++ "h " ++ toString m ++ "m"
      else toString m ++ "m" := by
  have h1 : (d * 86400 + h * 3600 + m * 60) / (24 * 3600) = d := by omega
  have h2 : ((d * 86400 + h * 3600 + m * 60) % (24 * 3600)) / 3600 = h := by omega
  have h3 : ((d * 86400 + h * 3600 + m * 60) % 3600) / 60 = m := by omega
  simp only [format_uptime, h1, h2, h3]

/-- Claim C7 witness: the amended formatter rule at one day, two hours,
three minutes. -/
theorem claim_C7_uptime_units_witness :
    format_uptime (1 * 86400 + 2 * 3600 + 3 * 60) =
      if 1 > 0 then
        toString 1 ++ "d " ++ toString 2 ++ "h " ++ toString 3 ++ "m"
      else if 2 > 0 then toString 2 ++ "h " ++ toString 3 ++ "m"
      else toString 3 ++ "m" :=
  claim_C7_uptime_units 1 2 3 (by decide) (by decide)

/-- Claim C8: the uptime formatter prints "{d}d {h}h {m}m" when days are
non-zero, "{h}h {m}m" when days are zero and hours non-zero, and "{m}m"
otherwise; in particular 5 minutes give "5m", one day two hours three
minutes give "1d 2h 3m", and three hours give "3h 0m". -/
theorem claim_C8_uptime_examples :
    (∀ us : Nat,
      format_uptime us =
        if us / 86400 > 0 then
          toString (us / 86400) ++ "d " ++ toString (us % 86400 / 3600) ++ "h " ++
            toString (us % 3600 / 60) ++ "m"
        else if us % 86400 / 3600 > 0 then
          toString (us % 86400 / 3600) ++ "h " ++ toString (us % 3600 / 60) ++ "m"
        else toString (us % 3600 / 60) ++ "m") ∧
    format_uptime (5 * 60) = "5m" ∧
    format_uptime (86400 + 2 * 3600 + 3 * 60) = "1d 2h 3m" ∧
    format_uptime (3 * 3600) = "3h 0m" :=
  ⟨fun _ => rfl, by decide, by decide, by decide⟩

/-- Claim C9: a window-creation event for a window whose class is not the
native tooltip class never reaches the tooltip mutator: the CBT hook
schedules no deferred worker, and `modify_tooltip_text` itself leaves the
state (and so the window text) unchanged for a non-tooltip class. -/
theorem claim_C9_non_tooltip_untouched :
    (∀ (cenv : CbtEnv) (code : Int), cenv.className ≠ "tooltips_class32" →
      HookEvent.scheduleTooltipWorker ∉ (cbt_hook_proc cenv code).1) ∧
    (∀ (tenv : TooltipEnv) (s : TooltipState),
      tenv.className ≠ "tooltips_class32" →
      modify_tooltip_text tenv s = s) := by
  refine ⟨fun cenv code h => ?_, fun tenv s h => ?_⟩
  · simp [cbt_hook_proc, h]
  · simp [modify_tooltip_text, mutate_tooltip, h]

/-- Claim C9 witness: a window-creation event for a "Button" window
schedules no worker, and the mutator leaves a "Button" window's state
unchanged. -/
theorem claim_C9_non_tooltip_untouched_witness :
    HookEvent.scheduleTooltipWorker ∉
      (cbt_hook_proc ⟨"Button", 0⟩ HCBT_CREATEWND).1 ∧
    modify_tooltip_text ⟨1000, "Button", true, true, "5m", "Uke 41"⟩
        ⟨none, "12:00"⟩ = ⟨none, "12:00"⟩ :=
  ⟨claim_C9_non_tooltip_untouched.1 ⟨"Button", 0⟩ HCBT_CREATEWND (by decide),
   claim_C9_non_tooltip_untouched.2 ⟨1000, "Button", true, true, "5m", "Uke 41"⟩
     ⟨none, "12:00"⟩ (by decide)⟩

/-- Claim C10: the formatter receives the 32-bit-truncated tick count
divided by 1000: below 2^32 ms the true uptime is reported, the received
value is periodic with period 2^32 ms, at exactly 2^32 ms of true uptime
the display is back to "0m", and 2^32 ms lies between 49 and 50 days. -/
theorem claim_C10_tick_wrap :
    (∀ t : Nat, t < 2 ^ 32 → uptime_seconds_received t = t / 1000) ∧
    (∀ t : Nat,
      uptime_seconds_received (t + 2 ^ 32) = uptime_seconds_received t) ∧
    get_uptime (2 ^ 32) = "0m" ∧
    (49 * 86400000 < 2 ^ 32 ∧ 2 ^ 32 < 50 * 86400000) := by
  refine ⟨fun t ht => ?_, fun t => ?_, by decide, by decide⟩
  · simp only [uptime_seconds_received, getTickCount]
    omega
  · simp only [uptime_seconds_received, getTickCount]
    omega

/-- Claim C10 witness: at 5000ms the formatter receives 5 seconds, and
one full wrap later it receives the same value. -/
theorem claim_C10_tick_wrap_witness :
    uptime_seconds_received 5000 = 5000 / 1000 ∧
    uptime_seconds_received (5000 + 2 ^ 32) = uptime_seconds_received 5000 :=
  ⟨claim_C10_tick_wrap.1 5000 (by decide), claim_C10_tick_wrap.2.1 5000⟩

end XClock
